import Mathlib

/-!
Verification development for the G-code bending program (`bend_gcode.py`).

The program rewrites a 3D-printer motion program so that printed layers
follow a user-specified spline.  We embed the program shallowly:

* the command parser (`parseGCode`, source line 89-93) is modelled as a
  deterministic character-level parser equivalent to the anchored regex
  `(?i)^[gG][0-3](?:\s+x(...)|\s+y(...)|\s+z(...)|\s+e(...)|\s+f(...))*`
  with last-capture-wins semantics and the 1-15 character value limit;
* Python `float(...)` applied to captured value strings is `pyFloat`
  (returns `none` where Python would raise `ValueError`);
* the floating-point state of the main loop (source lines 131-213) is
  modelled over the real numbers; the spline, its derivative, and the
  configuration constants are fields of `Config`;
* one iteration of the main loop is `step`; emitted output-file writes are
  events of type `OutLine` and diagnostic prints are events of type `Warn`;
  a result of `none` models a Python exception (e.g. `float` failing or
  `onSplineLength` running off the table and returning `None`).
-/

namespace BendGCode

/-- `Point2D` of the source (line 18), over the reals. -/
structure Point2D where
  x : ℝ
  y : ℝ

/-- `GCodeLine` of the source (line 19): the five regex captures, each a raw
captured string or absent, exactly as `re.match(...).group(...)` yields. -/
structure GCodeLine where
  x : Option String
  y : Option String
  z : Option String
  e : Option String
  f : Option String
deriving DecidableEq

/-- The empty capture record: a match with no field groups. -/
def emptyGCodeLine : GCodeLine := ⟨none, none, none, none, none⟩

/-- Python `\s` on the character set reachable here (ASCII whitespace). -/
def isSpaceChar (c : Char) : Bool :=
  c == ' ' || c == '\t' || c == '\n' || c == '\r' || c == '\x0b' || c == '\x0c'

/-- The regex value character class `[0-9.]`. -/
def isFieldChar (c : Char) : Bool :=
  c.isDigit || c == '.'

/-- Greedily take up to `n` characters of `[0-9.]`, as `{1,15}` does. -/
def takeFieldChars : ℕ → List Char → List Char × List Char
  | 0, cs => ([], cs)
  | _ + 1, [] => ([], [])
  | n + 1, c :: t =>
    if isFieldChar c then
      match takeFieldChars n t with
      | (a, b) => (c :: a, b)
    else ([], c :: t)

/-- The regex value `-?[0-9.]{1,15}`: optional minus then one to fifteen
characters of `[0-9.]`; fails if no such character follows. -/
def parseVal : List Char → Option (String × List Char)
  | '-' :: t =>
    match takeFieldChars 15 t with
    | ([], _) => none
    | (a, b) => some (⟨'-' :: a⟩, b)
  | cs =>
    match takeFieldChars 15 cs with
    | ([], _) => none
    | (a, b) => some (⟨a⟩, b)

/-- Drop leading whitespace characters. -/
def dropWhileSpace : List Char → List Char
  | [] => []
  | c :: t => if isSpaceChar c then dropWhileSpace t else c :: t

/-- The field letter of one alternation branch, case-insensitively, mapped to
its lower-case slot name; `none` when no branch applies. -/
def fieldLetterSlot (c : Char) : Option Char :=
  if c == 'x' || c == 'X' then some 'x'
  else if c == 'y' || c == 'Y' then some 'y'
  else if c == 'z' || c == 'Z' then some 'z'
  else if c == 'e' || c == 'E' then some 'e'
  else if c == 'f' || c == 'F' then some 'f'
  else none

/-- One iteration of the regex group `(?:\s+x(...)|...)`: one or more
whitespace characters, a field letter, and a value.  Returns the slot, the
captured value, and the remaining input; `none` ends the repetition. -/
def oneField : List Char → Option (Char × String × List Char)
  | [] => none
  | c :: t =>
    if isSpaceChar c then
      match dropWhileSpace t with
      | [] => none
      | d :: u =>
        match fieldLetterSlot d with
        | none => none
        | some slot =>
          match parseVal u with
          | none => none
          | some (v, rest) => some (slot, v, rest)
    else none

/-- Store a capture in its slot; repeated captures of one group overwrite the
previous one, as Python keeps the last successful capture. -/
def setField (g : GCodeLine) (slot : Char) (v : String) : GCodeLine :=
  if slot == 'x' then ⟨some v, g.y, g.z, g.e, g.f⟩
  else if slot == 'y' then ⟨g.x, some v, g.z, g.e, g.f⟩
  else if slot == 'z' then ⟨g.x, g.y, some v, g.e, g.f⟩
  else if slot == 'e' then ⟨g.x, g.y, g.z, some v, g.f⟩
  else ⟨g.x, g.y, g.z, g.e, some v⟩

/-- The `*` repetition of field groups.  Fuel bounds the recursion; each
successful iteration consumes at least three characters, so fuel equal to the
input length is never exhausted before the parse naturally stops. -/
def fieldLoop : ℕ → GCodeLine → List Char → GCodeLine
  | 0, g, _ => g
  | fuel + 1, g, cs =>
    match oneField cs with
    | none => g
    | some (slot, v, rest) => fieldLoop fuel (setField g slot v) rest

/-- `parseGCode` (source lines 89-93): `re.match` of the move regex.  A line
whose first two characters are `g`/`G` and a digit `0`-`3` matches (the field
repetition may match zero times, and `re.match` needs only a prefix match);
anything else yields `None`. -/
def parseGCode (line : String) : Option GCodeLine :=
  match line.data with
  | g :: d :: rest =>
    if (g == 'G' || g == 'g') && (d == '0' || d == '1' || d == '2' || d == '3')
    then some (fieldLoop rest.length emptyGCodeLine rest)
    else none
  | _ => none

/-- Specification-side description of the recognized move syntax: a command
letter `g`/`G` followed by a move-type digit `0`-`3`. -/
def moveHead (line : String) : Bool :=
  match line.data with
  | g :: d :: _ =>
    (g == 'G' || g == 'g') && (d == '0' || d == '1' || d == '2' || d == '3')
  | _ => false

/-- Digits of a decimal numeral to a natural number. -/
def digitsToNat (cs : List Char) : ℕ :=
  cs.foldl (fun a c => 10 * a + (c.toNat - 48)) 0

/-- Split a character list at the first dot, if any. -/
def breakAtDot : List Char → List Char × Option (List Char)
  | [] => ([], none)
  | c :: t =>
    if c == '.' then ([], some t)
    else
      match breakAtDot t with
      | (a, b) => (c :: a, b)

/-- Python `float` on an unsigned numeral over `[0-9.]`: digits with at most
one dot and at least one digit somewhere; otherwise a `ValueError` (`none`). -/
def pyFloatCore (cs : List Char) : Option ℚ :=
  match breakAtDot cs with
  | (ip, none) =>
    if !ip.isEmpty && ip.all Char.isDigit then some (digitsToNat ip) else none
  | (ip, some rest) =>
    match breakAtDot rest with
    | (fp, none) =>
      if (!ip.isEmpty || !fp.isEmpty) && ip.all Char.isDigit && fp.all Char.isDigit
      then some ((digitsToNat ip : ℚ) + (digitsToNat fp : ℚ) / (10 ^ fp.length : ℚ))
      else none
    | (_, some _) => none

/-- Python `float(s)` on a captured value string (optional leading minus). -/
def pyFloat (s : String) : Option ℚ :=
  match s.data with
  | '-' :: rest => (pyFloatCore rest).map (fun q => -q)
  | cs => pyFloatCore cs

/-- Does `p` occur as a contiguous substring of `l`?  This is Python
`str.find(p) != -1`. -/
def listContainsSub (p : List Char) : List Char → Bool
  | [] => p.isPrefixOf ([] : List Char)
  | c :: t => p.isPrefixOf (c :: t) || listContainsSub p t

/-- `line.find(pat) != -1` of the source (lines 143 and 147). -/
def containsSubstr (line pat : String) : Bool :=
  listContainsSub pat.data line.data

/-- The relative-mode switch token searched for on source line 143. -/
def tokG91 : String := "G91 "

/-- The absolute-mode switch token searched for on source line 147. -/
def tokG90 : String := "G90 "

/-- How the main loop dispatches on the raw line text (source lines 140-150):
comment marker first, then the `G91 ` token, then the `G90 ` token. -/
inductive LineKind where
  | empty
  | comment
  | switchRel
  | switchAbs
  | plain
deriving DecidableEq

/-- Classify one input line exactly as the chain of tests on source lines
140, 143 and 147 does.  `empty` marks the `currentLine[0]` index error on an
empty string, which line iteration over a file never produces. -/
def classify (line : String) : LineKind :=
  match line.data with
  | [] => LineKind.empty
  | c :: _ =>
    if c == ';' then LineKind.comment
    else if containsSubstr line tokG91 then LineKind.switchRel
    else if containsSubstr line tokG90 then LineKind.switchAbs
    else LineKind.plain

/-- The user-input configuration and the derived spline (source lines 55-70).
`spline` is `SPLINE(·)`, `splineDeriv` is `SPLINE(·, 1)`, `splineX0` is
`SPLINE_X[0]`, `table` is the `SplineLookupTable` after construction. -/
structure Config where
  spline : ℝ → ℝ
  splineDeriv : ℝ → ℝ
  splineX0 : ℝ
  layerHeight : ℝ
  warningAngle : ℝ
  discLength : ℝ
  table : List ℝ

/-- The mutable state of the main loop (source lines 131-135). -/
structure PState where
  lastPosition : Point2D
  currentZ : ℝ
  lastZ : ℝ
  relativeMode : Bool

/-- Diagnostic prints of the main loop, in source order: the warning on line
187, the possibly-unplausible-move warning on line 191 (`suspectMove` here),
the self-intersection error on line 196 and the angle warning on line 200. -/
inductive Warn where
  | belowPlatform
  | suspectMove (z : ℝ)
  | selfIntersection (z : ℝ)
  | angleLimit (a z : ℝ)

/-- One write to the output file.  `raw s` copies an input line verbatim;
`setRelative`, `relZ dz f` and `setAbsolute` are the three lines of the
`"G91\nG1 Z...[ F...]\nG90\n"` block written on source lines 161-164 (the
feed value is the raw captured string, as in the source); `move` is one
`writeLine(G, X, Y, Z, F, E)` call (source lines 95-101) with its arguments
in signature order, before decimal rounding. -/
inductive OutLine where
  | raw (s : String)
  | setRelative
  | relZ (dz : ℝ) (f : Option String)
  | setAbsolute
  | move (g : ℕ) (x y z : ℝ) (f : Option ℝ) (e : Option ℝ)

/-- `getNormalPoint` (source lines 85-87): project `currentPoint` a given
distance along the normal of the spline at that point. -/
noncomputable def getNormalPoint (currentPoint : Point2D) (derivative distance : ℝ) :
    Point2D :=
  ⟨currentPoint.x + distance * Real.cos (Real.arctan derivative + Real.pi / 2),
   currentPoint.y + distance * Real.sin (Real.arctan derivative + Real.pi / 2)⟩

/-- The scan loop of `onSplineLength` (source lines 117-120), carrying the
running index `i`.  Falling off the table is the `None` return after the
error print on line 121. -/
noncomputable def onSplineLengthAux (dl z : ℝ) : List ℝ → ℕ → Option ℝ
  | [], _ => none
  | h :: t, i => if z ≤ h then some ((i : ℝ) * dl) else onSplineLengthAux dl z t (i + 1)

/-- `onSplineLength` (source lines 116-121): forward scan for the first table
entry at least `z`, returning its index times the discretization length. -/
noncomputable def onSplineLength (table : List ℝ) (dl z : ℝ) : Option ℝ :=
  onSplineLengthAux dl z table 0

/-- Arc length of one discretization step ending at height `h`
(source line 127). -/
noncomputable def splineSegment (f : ℝ → ℝ) (dl h : ℝ) : ℝ :=
  Real.sqrt ((f h - f (h - dl)) ^ 2 + dl ^ 2)

/-- Running arc-length sum after `n` steps, i.e. `SplineLookupTable[n]`. -/
noncomputable def arcAccum (f : ℝ → ℝ) (dl : ℝ) : ℕ → ℝ
  | 0 => 0
  | n + 1 => arcAccum f dl n + splineSegment f dl (((n + 1 : ℕ) : ℝ) * dl)

/-- `createSplineLookupTable` (source lines 123-127) with `n` height steps:
the table starts at `0.0` and accumulates one segment length per step. -/
noncomputable def createSplineLookupTable (f : ℝ → ℝ) (dl : ℝ) (n : ℕ) : List ℝ :=
  (List.range (n + 1)).map (arcAccum f dl)

/-- Inclination angle of the spline at corrected height `h`
(source lines 177 and 179). -/
noncomputable def angleOf (cfg : Config) (h : ℝ) : ℝ :=
  Real.arctan (cfg.splineDeriv h)

/-- `midpointX - SPLINE_X[0]` (source lines 170-172). -/
noncomputable def distToSplineOf (cfg : Config) (lastPos : Point2D) (x : ℝ) : ℝ :=
  lastPos.x + (x - lastPos.x) / 2 - cfg.splineX0

/-- `heightDifference` (source line 181). -/
noncomputable def heightDiffOf (cfg : Config) (lastPos : Point2D) (x corrected : ℝ) : ℝ :=
  Real.sin (angleOf cfg corrected - angleOf cfg (corrected - cfg.layerHeight)) *
    distToSplineOf cfg lastPos x * (-1)

/-- All quantities the transform branch computes for one move
(source lines 170-183 and the extrusion factor of line 205). -/
structure MoveCalc where
  corrected : ℝ
  angleThis : ℝ
  angleLast : ℝ
  heightDiff : ℝ
  transformed : Point2D
  scale : ℝ

/-- The transform pipeline at a known corrected height.  The projected point
feeds `(correctedZHeight, SPLINE(correctedZHeight))` to `getNormalPoint`, so
the `x` component of `transformed` lies on the height axis (curve-parameter
physical height) and the `y` component on the horizontal offset axis. -/
noncomputable def moveCalcAt (cfg : Config) (lastPos : Point2D) (x corrected : ℝ) :
    MoveCalc :=
  ⟨corrected,
   angleOf cfg corrected,
   angleOf cfg (corrected - cfg.layerHeight),
   heightDiffOf cfg lastPos x corrected,
   getNormalPoint ⟨corrected, cfg.spline corrected⟩ (cfg.splineDeriv corrected)
     (x - cfg.splineX0),
   (cfg.layerHeight + heightDiffOf cfg lastPos x corrected) / cfg.layerHeight⟩

/-- The transform pipeline including the `onSplineLength` height correction
(source line 175); `none` is the undefined fall-through when the spline is
not defined high enough. -/
noncomputable def moveCalc (cfg : Config) (lastPos : Point2D) (x cz : ℝ) :
    Option MoveCalc :=
  match onSplineLength cfg.table cfg.discLength cz with
  | none => none
  | some corrected => some (moveCalcAt cfg lastPos x corrected)

/-- `currentZ` after the update on source lines 156-157: the parsed `z`
field when present, the previous value otherwise; `none` models `float`
raising on a malformed capture. -/
noncomputable def zOf (cmd : GCodeLine) (st : PState) : Option ℝ :=
  match cmd.z with
  | none => some st.currentZ
  | some zs =>
    match pyFloat zs with
    | none => none
    | some q => some (q : ℝ)

/-- Python `float` of a captured string, as a real. -/
noncomputable def pyFloatR (s : String) : Option ℝ :=
  match pyFloat s with
  | none => none
  | some q => some (q : ℝ)

/-- The extrusion argument passed to `writeLine` (source lines 202-208):
absent field stays absent, otherwise the parsed value times the layer-height
correction factor; the outer `none` models `float` raising. -/
noncomputable def extrOf (cmd : GCodeLine) (scale : ℝ) : Option (Option ℝ) :=
  match cmd.e with
  | none => some none
  | some es =>
    match pyFloatR es with
    | none => none
    | some ev => some (some (ev * scale))

/-- The x/y-move branch of the main loop (source lines 169-211), after the
current z height `cz` has been resolved.  `pre` is the line already written
when the loop entered in relative mode (the `continue` on source line 153 is
commented out, so execution falls through to here). -/
noncomputable def stepMove (cfg : Config) (st : PState) (line : String)
    (pre : List OutLine) (cmd : GCodeLine) (cz : ℝ) (xs ys : String) :
    Option (PState × List OutLine × List Warn) :=
  match pyFloatR xs, pyFloatR ys with
  | some xv, some yv =>
    (match moveCalc cfg st.lastPosition xv cz with
     | none => none
     | some mc =>
       if mc.transformed.x < 0 ∨ |mc.transformed.x - cz| > 50 then
         some (⟨st.lastPosition, cz, st.lastZ, st.relativeMode⟩,
           pre ++ [OutLine.raw line],
           (if mc.transformed.x ≤ 0 then [Warn.belowPlatform] else []) ++
             [Warn.suspectMove cz])
       else
         match extrOf cmd mc.scale with
         | none => none
         | some eo =>
           some (⟨⟨xv, yv⟩, cz, cz, st.relativeMode⟩,
             pre ++ [OutLine.move 1 mc.transformed.y yv mc.transformed.x none eo],
             (if mc.transformed.x ≤ 0 then [Warn.belowPlatform] else []) ++
               (if cfg.layerHeight + mc.heightDiff < 0
                then [Warn.selfIntersection cz] else []) ++
               (if mc.angleThis > cfg.warningAngle * Real.pi / 180
                then [Warn.angleLimit mc.angleThis cz] else [])))
  | _, _ => none

/-- Processing of a line that parsed as a move (source lines 155-211):
resolve the z update, then dispatch on presence of the x and y fields —
both present is the transform branch, otherwise a z-hop block when a z field
is present (lines 159-166) and a verbatim copy when not (line 167). -/
noncomputable def stepParsed (cfg : Config) (st : PState) (line : String)
    (pre : List OutLine) (cmd : GCodeLine) :
    Option (PState × List OutLine × List Warn) :=
  match zOf cmd st with
  | none => none
  | some cz =>
    match cmd.x, cmd.y with
    | some xs, some ys => stepMove cfg st line pre cmd cz xs ys
    | _, _ =>
      if cmd.z.isSome then
        some (⟨st.lastPosition, cz, cz, st.relativeMode⟩,
          pre ++ [OutLine.setRelative, OutLine.relZ (cz - st.lastZ) cmd.f,
            OutLine.setAbsolute], [])
      else
        some (⟨st.lastPosition, cz, st.lastZ, st.relativeMode⟩,
          pre ++ [OutLine.raw line], [])

/-- A non-comment, non-mode-switch line (source lines 151-213).  When the
loop is in relative mode the line is written immediately (line 152), but —
the `continue` on line 153 being commented out — processing falls through to
the parse and possibly writes again. -/
noncomputable def stepPlain (cfg : Config) (st : PState) (line : String) :
    Option (PState × List OutLine × List Warn) :=
  match parseGCode line with
  | none =>
    some (st, (if st.relativeMode then [OutLine.raw line] else []) ++
      [OutLine.raw line], [])
  | some cmd =>
    stepParsed cfg st line
      (if st.relativeMode then [OutLine.raw line] else []) cmd

/-- One iteration of the main loop (source lines 139-213) on one input
line. -/
noncomputable def step (cfg : Config) (st : PState) (line : String) :
    Option (PState × List OutLine × List Warn) :=
  match classify line with
  | LineKind.empty => none
  | LineKind.comment => some (st, [OutLine.raw line], [])
  | LineKind.switchRel =>
    some (⟨st.lastPosition, st.currentZ, st.lastZ, true⟩, [OutLine.raw line], [])
  | LineKind.switchAbs =>
    some (⟨st.lastPosition, st.currentZ, st.lastZ, false⟩, [OutLine.raw line], [])
  | LineKind.plain => stepPlain cfg st line

/-! ### Concrete instances used for evaluations

`cfgA` and `cfgB` are identity-curve configurations (constant spline equal to
the reference x origin, zero derivative), differing only in the lookup table;
`cfgC` has a constant derivative of `3/4`, for which the trigonometry is
exactly computable.  Layer height 1, maximum angle 30 degrees and
discretization length 1 throughout. -/

/-- Identity curve, lookup table `[0, 1, 2]`. -/
noncomputable def cfgA : Config := ⟨fun _ => 0, fun _ => 0, 0, 1, 30, 1, [0, 1, 2]⟩

/-- Identity curve, lookup table `[0, 100]` (one very long first segment). -/
noncomputable def cfgB : Config := ⟨fun _ => 0, fun _ => 0, 0, 1, 30, 1, [0, 100]⟩

/-- Constant spline value 7, constant derivative `3/4`, table `[0]`. -/
noncomputable def cfgC : Config := ⟨fun _ => 7, fun _ => 3 / 4, 0, 1, 30, 1, [0]⟩

/-- The initial processor state (source lines 131-135). -/
noncomputable def st0 : PState := ⟨⟨0, 0⟩, 0, 0, false⟩

/-- The initial state after a switch to relative mode. -/
noncomputable def stRel : PState := ⟨⟨0, 0⟩, 0, 0, true⟩

/-- The result of the identity-curve transform at corrected height `h` and
planar x position `x`. -/
noncomputable def mcIdAt (h x : ℝ) : MoveCalc := ⟨h, 0, 0, 0, ⟨h, x⟩, 1⟩

/-- The result of the `cfgC` transform at corrected height 0 and planar x 10:
the projected point is `(-6, 15)` since `sin (arctan (3/4)) = 3/5`. -/
noncomputable def mcC7 : MoveCalc :=
  ⟨0, Real.arctan (3 / 4), Real.arctan (3 / 4), 0, ⟨-6, 15⟩, 1⟩

def strTen : String := "10"
def strOne : String := "1"
def strFive : String := "5"
def strSixty : String := "60"
def strF300 : String := "300"
def strF1200 : String := "1200"

/-- A relative-mode switch line. -/
def lineG91 : String := "G91 \n"
/-- An absolute-mode switch without the trailing space the scan looks for. -/
def lineG90bare : String := "G90\n"
/-- A plain x/y/z move. -/
def lineMXY : String := "G1 X10 Y10 Z1\n"
/-- A pure vertical move with a feed rate. -/
def lineZhop : String := "G1 Z5 F300\n"
/-- A move whose z height 60 is far above its corrected height. -/
def lineSixty : String := "G1 X1 Y1 Z60\n"
/-- A move carrying a feed rate. -/
def lineFeed : String := "G1 X10 Y10 Z1 F1200\n"
/-- A plain x/y move (used on the sloped configuration `cfgC`). -/
def lineBelow : String := "G1 X10 Y10\n"
/-- A move line with the `G91 ` token occurring mid-line. -/
def lineMid91 : String := "G1 X5 G91 Y2\n"

/-- Parse result of `lineMXY`. -/
def gMXY : GCodeLine := ⟨some strTen, some strTen, some strOne, none, none⟩
/-- Parse result of `lineZhop`. -/
def gZhop : GCodeLine := ⟨none, none, some strFive, none, some strF300⟩
/-- Parse result of `lineSixty`. -/
def gSixty : GCodeLine := ⟨some strOne, some strOne, some strSixty, none, none⟩
/-- Parse result of `lineFeed`. -/
def gFeed : GCodeLine := ⟨some strTen, some strTen, some strOne, none, some strF1200⟩
/-- Parse result of `lineBelow`. -/
def gBelow : GCodeLine := ⟨some strTen, some strTen, none, none, none⟩

/-! ### Unfolding and evaluation lemmas -/

theorem step_switchRel (cfg : Config) (st : PState) (line : String)
    (h : classify line = LineKind.switchRel) :
    step cfg st line =
      some (⟨st.lastPosition, st.currentZ, st.lastZ, true⟩, [OutLine.raw line], []) := by
  unfold step; rw [h]

theorem step_switchAbs (cfg : Config) (st : PState) (line : String)
    (h : classify line = LineKind.switchAbs) :
    step cfg st line =
      some (⟨st.lastPosition, st.currentZ, st.lastZ, false⟩, [OutLine.raw line], []) := by
  unfold step; rw [h]

theorem step_plain_eq (cfg : Config) (st : PState) (line : String)
    (h : classify line = LineKind.plain) :
    step cfg st line = stepPlain cfg st line := by
  unfold step; rw [h]

theorem stepPlain_parsed (cfg : Config) (st : PState) (line : String) (cmd : GCodeLine)
    (hp : parseGCode line = some cmd) :
    stepPlain cfg st line =
      stepParsed cfg st line (if st.relativeMode then [OutLine.raw line] else []) cmd := by
  unfold stepPlain; rw [hp]

theorem stepPlain_unparsed (cfg : Config) (st : PState) (line : String)
    (hp : parseGCode line = none) :
    stepPlain cfg st line =
      some (st, (if st.relativeMode then [OutLine.raw line] else []) ++
        [OutLine.raw line], []) := by
  unfold stepPlain; rw [hp]

theorem stepParsed_xy (cfg : Config) (st : PState) (line : String) (pre : List OutLine)
    (cmd : GCodeLine) (cz : ℝ) (xs ys : String)
    (hcz : zOf cmd st = some cz) (hx : cmd.x = some xs) (hy : cmd.y = some ys) :
    stepParsed cfg st line pre cmd = stepMove cfg st line pre cmd cz xs ys := by
  unfold stepParsed; rw [hcz, hx, hy]

theorem stepParsed_zhop (cfg : Config) (st : PState) (line : String) (pre : List OutLine)
    (cmd : GCodeLine) (cz : ℝ) (zs : String)
    (hcz : zOf cmd st = some cz) (hx : cmd.x = none) (hz : cmd.z = some zs) :
    stepParsed cfg st line pre cmd =
      some (⟨st.lastPosition, cz, cz, st.relativeMode⟩,
        pre ++ [OutLine.setRelative, OutLine.relZ (cz - st.lastZ) cmd.f,
          OutLine.setAbsolute], []) := by
  unfold stepParsed
  cases hy : cmd.y <;> simp [hcz, hx, hy, hz]

theorem stepMove_ok (cfg : Config) (st : PState) (line : String) (pre : List OutLine)
    (cmd : GCodeLine) (cz : ℝ) (xs ys : String) (xv yv : ℝ) (mc : MoveCalc)
    (eo : Option ℝ)
    (hxv : pyFloatR xs = some xv) (hyv : pyFloatR ys = some yv)
    (hmc : moveCalc cfg st.lastPosition xv cz = some mc)
    (hok : ¬(mc.transformed.x < 0 ∨ |mc.transformed.x - cz| > 50))
    (heo : extrOf cmd mc.scale = some eo) :
    stepMove cfg st line pre cmd cz xs ys =
      some (⟨⟨xv, yv⟩, cz, cz, st.relativeMode⟩,
        pre ++ [OutLine.move 1 mc.transformed.y yv mc.transformed.x none eo],
        (if mc.transformed.x ≤ 0 then [Warn.belowPlatform] else []) ++
          (if cfg.layerHeight + mc.heightDiff < 0
           then [Warn.selfIntersection cz] else []) ++
          (if mc.angleThis > cfg.warningAngle * Real.pi / 180
           then [Warn.angleLimit mc.angleThis cz] else [])) := by
  unfold stepMove
  simp only [hxv, hyv, hmc]
  rw [if_neg hok]
  simp only [heo]

theorem stepMove_bad (cfg : Config) (st : PState) (line : String) (pre : List OutLine)
    (cmd : GCodeLine) (cz : ℝ) (xs ys : String) (xv yv : ℝ) (mc : MoveCalc)
    (hxv : pyFloatR xs = some xv) (hyv : pyFloatR ys = some yv)
    (hmc : moveCalc cfg st.lastPosition xv cz = some mc)
    (hbad : mc.transformed.x < 0 ∨ |mc.transformed.x - cz| > 50) :
    stepMove cfg st line pre cmd cz xs ys =
      some (⟨st.lastPosition, cz, st.lastZ, st.relativeMode⟩,
        pre ++ [OutLine.raw line],
        (if mc.transformed.x ≤ 0 then [Warn.belowPlatform] else []) ++
          [Warn.suspectMove cz]) := by
  unfold stepMove
  simp only [hxv, hyv, hmc]
  rw [if_pos hbad]

/-- Composed evaluation of `step` through the plausible transform branch in
absolute mode. -/
theorem step_move_ok_eval (cfg : Config) (st : PState) (line : String)
    (cmd : GCodeLine) (xs ys : String) (xv yv cz : ℝ) (mc : MoveCalc) (eo : Option ℝ)
    (hcl : classify line = LineKind.plain) (hrel : st.relativeMode = false)
    (hparse : parseGCode line = some cmd)
    (hx : cmd.x = some xs) (hy : cmd.y = some ys)
    (hxv : pyFloatR xs = some xv) (hyv : pyFloatR ys = some yv)
    (hcz : zOf cmd st = some cz)
    (hmc : moveCalc cfg st.lastPosition xv cz = some mc)
    (hok : ¬(mc.transformed.x < 0 ∨ |mc.transformed.x - cz| > 50))
    (heo : extrOf cmd mc.scale = some eo) :
    step cfg st line =
      some (⟨⟨xv, yv⟩, cz, cz, false⟩,
        [OutLine.move 1 mc.transformed.y yv mc.transformed.x none eo],
        (if mc.transformed.x ≤ 0 then [Warn.belowPlatform] else []) ++
          (if cfg.layerHeight + mc.heightDiff < 0
           then [Warn.selfIntersection cz] else []) ++
          (if mc.angleThis > cfg.warningAngle * Real.pi / 180
           then [Warn.angleLimit mc.angleThis cz] else [])) := by
  rw [step_plain_eq _ _ _ hcl, stepPlain_parsed _ _ _ _ hparse,
    stepParsed_xy _ _ _ _ _ cz xs ys hcz hx hy,
    stepMove_ok _ _ _ _ _ _ _ _ xv yv mc eo hxv hyv hmc hok heo, hrel]
  simp

/-- Composed evaluation of `step` through the implausible-move branch in
absolute mode. -/
theorem step_move_bad_eval (cfg : Config) (st : PState) (line : String)
    (cmd : GCodeLine) (xs ys : String) (xv yv cz : ℝ) (mc : MoveCalc)
    (hcl : classify line = LineKind.plain) (hrel : st.relativeMode = false)
    (hparse : parseGCode line = some cmd)
    (hx : cmd.x = some xs) (hy : cmd.y = some ys)
    (hxv : pyFloatR xs = some xv) (hyv : pyFloatR ys = some yv)
    (hcz : zOf cmd st = some cz)
    (hmc : moveCalc cfg st.lastPosition xv cz = some mc)
    (hbad : mc.transformed.x < 0 ∨ |mc.transformed.x - cz| > 50) :
    step cfg st line =
      some (⟨st.lastPosition, cz, st.lastZ, false⟩,
        [OutLine.raw line],
        (if mc.transformed.x ≤ 0 then [Warn.belowPlatform] else []) ++
          [Warn.suspectMove cz]) := by
  rw [step_plain_eq _ _ _ hcl, stepPlain_parsed _ _ _ _ hparse,
    stepParsed_xy _ _ _ _ _ cz xs ys hcz hx hy,
    stepMove_bad _ _ _ _ _ _ _ _ xv yv mc hxv hyv hmc hbad, hrel]
  simp

/-! ### Mode preservation on non-switch lines -/

theorem stepMove_mode (cfg : Config) (st : PState) (line : String) (pre : List OutLine)
    (cmd : GCodeLine) (cz : ℝ) (xs ys : String) (st2 : PState) (outs : List OutLine)
    (ws : List Warn)
    (h : stepMove cfg st line pre cmd cz xs ys = some (st2, outs, ws)) :
    st2.relativeMode = st.relativeMode := by
  unfold stepMove at h
  repeat' split at h
  all_goals try exact Option.noConfusion h
  all_goals
    simp only [Option.some.injEq, Prod.mk.injEq] at h
    obtain ⟨h1, -⟩ := h
    subst h1
    rfl

theorem stepParsed_mode (cfg : Config) (st : PState) (line : String)
    (pre : List OutLine) (cmd : GCodeLine) (st2 : PState) (outs : List OutLine)
    (ws : List Warn)
    (h : stepParsed cfg st line pre cmd = some (st2, outs, ws)) :
    st2.relativeMode = st.relativeMode := by
  unfold stepParsed at h
  split at h
  · exact Option.noConfusion h
  · split at h
    · exact stepMove_mode _ _ _ _ _ _ _ _ _ _ _ h
    · split at h
      all_goals
        simp only [Option.some.injEq, Prod.mk.injEq] at h
        obtain ⟨h1, -⟩ := h
        subst h1
        rfl

theorem stepPlain_mode (cfg : Config) (st : PState) (line : String) (st2 : PState)
    (outs : List OutLine) (ws : List Warn)
    (h : stepPlain cfg st line = some (st2, outs, ws)) :
    st2.relativeMode = st.relativeMode := by
  unfold stepPlain at h
  split at h
  · simp only [Option.some.injEq, Prod.mk.injEq] at h
    obtain ⟨h1, -⟩ := h
    subst h1
    rfl
  · exact stepParsed_mode _ _ _ _ _ _ _ _ h

/-- The classifier on a non-comment line is determined by the two token
scans. -/
theorem classify_not_comment (line : String) (c : Char)
    (hd : line.data.head? = some c) (hc : (c == ';') = false) :
    classify line =
      (if containsSubstr line tokG91 then LineKind.switchRel
       else if containsSubstr line tokG90 then LineKind.switchAbs
       else LineKind.plain) := by
  unfold classify
  cases hld : line.data with
  | nil => rw [hld] at hd; exact Option.noConfusion hd
  | cons a t =>
    rw [hld] at hd
    simp only [List.head?_cons, Option.some.injEq] at hd
    subst hd
    simp [hc]

/-! ### Lookup-table lemmas -/

theorem onSplineLengthAux_hit (dl z h : ℝ) (t : List ℝ) (i : ℕ) (hz : z ≤ h) :
    onSplineLengthAux dl z (h :: t) i = some ((i : ℝ) * dl) := by
  simp only [onSplineLengthAux]
  rw [if_pos hz]

theorem onSplineLengthAux_miss (dl z h : ℝ) (t : List ℝ) (i : ℕ) (hz : ¬ z ≤ h) :
    onSplineLengthAux dl z (h :: t) i = onSplineLengthAux dl z t (i + 1) := by
  simp only [onSplineLengthAux]
  rw [if_neg hz]

/-- The forward scan returns index times step for the first table entry at
least the target, counting from the running index `k`. -/
theorem onSplineLengthAux_scan (dl z : ℝ) (t : List ℝ) :
    ∀ (i k : ℕ) (h : ℝ),
      (∀ j, j < i → ∀ x, t[j]? = some x → x < z) → t[i]? = some h → z ≤ h →
      onSplineLengthAux dl z t k = some (((k + i : ℕ) : ℝ) * dl) := by
  induction t with
  | nil =>
    intro i k h _ hih _
    simp at hih
  | cons a t ih =>
    intro i k h hlt hih hz
    cases i with
    | zero =>
      simp only [List.getElem?_cons_zero, Option.some.injEq] at hih
      subst hih
      rw [onSplineLengthAux_hit dl z a t k hz]
      norm_num
    | succ i =>
      have ha : a < z := hlt 0 (Nat.succ_pos i) a (by simp)
      rw [onSplineLengthAux_miss dl z a t k (not_le.mpr ha)]
      have hrec := ih i (k + 1) h
        (fun j hj x hx => hlt (j + 1) (Nat.succ_lt_succ hj) x (by simpa using hx))
        (by simpa using hih) hz
      rw [hrec]
      have hidx : k + 1 + i = k + (i + 1) := by omega
      rw [hidx]

/-! ### Transform evaluation on concrete curves -/

/-- The transform with a identically-zero derivative: no angles, no height
correction, projection straight along the offset axis. -/
theorem moveCalcAt_zeroDeriv (cfg : Config) (lp : Point2D) (x h : ℝ)
    (hd : cfg.splineDeriv = fun _ => 0) :
    moveCalcAt cfg lp x h =
      ⟨h, 0, 0, 0, ⟨h, cfg.spline h + (x - cfg.splineX0)⟩,
        cfg.layerHeight / cfg.layerHeight⟩ := by
  unfold moveCalcAt getNormalPoint heightDiffOf angleOf
  rw [hd]
  simp [Real.arctan_zero, Real.sin_zero, Real.cos_pi_div_two, Real.sin_pi_div_two]

theorem moveCalc_cfgA (lp : Point2D) (x : ℝ) :
    moveCalc cfgA lp x 1 = some (mcIdAt 1 x) := by
  unfold moveCalc
  have h1 : onSplineLength cfgA.table cfgA.discLength 1 = some 1 := by
    show onSplineLength [0, 1, 2] 1 1 = some 1
    unfold onSplineLength
    rw [onSplineLengthAux_miss _ _ _ _ _ (by norm_num),
      onSplineLengthAux_hit _ _ _ _ _ (by norm_num)]
    norm_num
  simp only [h1]
  rw [moveCalcAt_zeroDeriv cfgA lp x 1 rfl]
  unfold mcIdAt
  norm_num [cfgA]

theorem moveCalc_cfgB (lp : Point2D) (x : ℝ) :
    moveCalc cfgB lp x 60 = some (mcIdAt 1 x) := by
  unfold moveCalc
  have h1 : onSplineLength cfgB.table cfgB.discLength 60 = some 1 := by
    show onSplineLength [0, 100] 1 60 = some 1
    unfold onSplineLength
    rw [onSplineLengthAux_miss _ _ _ _ _ (by norm_num),
      onSplineLengthAux_hit _ _ _ _ _ (by norm_num)]
    norm_num
  simp only [h1]
  rw [moveCalcAt_zeroDeriv cfgB lp x 1 rfl]
  unfold mcIdAt
  norm_num [cfgB]

theorem sqrt_one_add_sq34 : Real.sqrt (1 + (3 / 4 : ℝ) ^ 2) = 5 / 4 := by
  rw [show (1 + (3 / 4 : ℝ) ^ 2) = (5 / 4) ^ 2 by norm_num,
    Real.sqrt_sq (by norm_num : (0 : ℝ) ≤ 5 / 4)]

theorem sin_arctan34 : Real.sin (Real.arctan (3 / 4)) = 3 / 5 := by
  rw [Real.sin_arctan, sqrt_one_add_sq34]
  norm_num

theorem cos_arctan34 : Real.cos (Real.arctan (3 / 4)) = 4 / 5 := by
  rw [Real.cos_arctan, sqrt_one_add_sq34]
  norm_num

theorem moveCalc_cfgC : moveCalc cfgC ⟨0, 0⟩ 10 0 = some mcC7 := by
  unfold moveCalc
  have h1 : onSplineLength cfgC.table cfgC.discLength 0 = some 0 := by
    show onSplineLength [0] 1 0 = some 0
    unfold onSplineLength
    rw [onSplineLengthAux_hit _ _ _ _ _ (le_refl (0 : ℝ))]
    norm_num
  simp only [h1]
  unfold moveCalcAt getNormalPoint heightDiffOf angleOf distToSplineOf mcC7
  simp only [cfgC]
  norm_num [Real.cos_add_pi_div_two, Real.sin_add_pi_div_two, sin_arctan34,
    cos_arctan34, Real.sin_zero]

/-! ### Parsed-value facts -/

theorem pyFloatR_strTen : pyFloatR strTen = some 10 := by
  unfold pyFloatR
  rw [show pyFloat strTen = some 10 from by decide]
  norm_num

theorem pyFloatR_strOne : pyFloatR strOne = some 1 := by
  unfold pyFloatR
  rw [show pyFloat strOne = some 1 from by decide]
  norm_num

theorem pyFloatR_strFive : pyFloatR strFive = some 5 := by
  unfold pyFloatR
  rw [show pyFloat strFive = some 5 from by decide]
  norm_num

theorem zOf_gMXY (st : PState) : zOf gMXY st = some 1 := by
  simp only [zOf, gMXY, show pyFloat strOne = some 1 from by decide]
  norm_num

theorem zOf_gFeed (st : PState) : zOf gFeed st = some 1 := by
  simp only [zOf, gFeed, show pyFloat strOne = some 1 from by decide]
  norm_num

theorem zOf_gSixty (st : PState) : zOf gSixty st = some 60 := by
  simp only [zOf, gSixty, show pyFloat strSixty = some 60 from by decide]
  norm_num

/-- Plausibility of an identity-transform result. -/
theorem mcIdAt_ok (h x cz : ℝ) (h0 : 0 ≤ h) (hd : |h - cz| ≤ 50) :
    ¬((mcIdAt h x).transformed.x < 0 ∨ |(mcIdAt h x).transformed.x - cz| > 50) := by
  push_neg
  exact ⟨by simpa [mcIdAt] using h0, by simpa [mcIdAt] using hd⟩

/-! ### Concrete step evaluations -/

/-- The three plausibility ifs are all negative for the identity transform of
`lineMXY` on `cfgA`. -/
theorem step_cfgA_abs_moveXY :
    step cfgA st0 lineMXY =
      some (⟨⟨10, 10⟩, 1, 1, false⟩, [OutLine.move 1 10 10 1 none none], []) := by
  have h := step_move_ok_eval cfgA st0 lineMXY gMXY strTen strTen 10 10 1
    (mcIdAt 1 10) none (by decide) rfl (by decide) rfl rfl pyFloatR_strTen
    pyFloatR_strTen (zOf_gMXY st0) (moveCalc_cfgA st0.lastPosition 10)
    (mcIdAt_ok 1 10 1 (by norm_num) (by norm_num)) rfl
  have hw1 : ¬ ((mcIdAt 1 10).transformed.x ≤ 0) := by norm_num [mcIdAt]
  have hw2 : ¬ (cfgA.layerHeight + (mcIdAt 1 10).heightDiff < 0) := by
    norm_num [cfgA, mcIdAt]
  have hw3 : ¬ ((mcIdAt 1 10).angleThis > cfgA.warningAngle * Real.pi / 180) := by
    refine not_lt.mpr ?_
    show (0 : ℝ) ≤ 30 * Real.pi / 180
    positivity
  rw [h, if_neg hw1, if_neg hw2, if_neg hw3]
  norm_num [mcIdAt]

/-- Same move processed while `relativeMode` is set: the line is written
verbatim and then, the `continue` being commented out, transformed again. -/
theorem step_cfgA_rel_moveXY :
    step cfgA stRel lineMXY =
      some (⟨⟨10, 10⟩, 1, 1, true⟩,
        [OutLine.raw lineMXY, OutLine.move 1 10 10 1 none none], []) := by
  rw [step_plain_eq _ _ _ (by decide), stepPlain_parsed _ _ _ gMXY (by decide),
    stepParsed_xy _ _ _ _ _ 1 strTen strTen (zOf_gMXY stRel) rfl rfl,
    stepMove_ok cfgA stRel lineMXY _ gMXY 1 strTen strTen 10 10 (mcIdAt 1 10)
      none pyFloatR_strTen pyFloatR_strTen (moveCalc_cfgA stRel.lastPosition 10)
      (mcIdAt_ok 1 10 1 (by norm_num) (by norm_num)) rfl]
  have hw1 : ¬ ((mcIdAt 1 10).transformed.x ≤ 0) := by norm_num [mcIdAt]
  have hw2 : ¬ (cfgA.layerHeight + (mcIdAt 1 10).heightDiff < 0) := by
    norm_num [cfgA, mcIdAt]
  have hw3 : ¬ ((mcIdAt 1 10).angleThis > cfgA.warningAngle * Real.pi / 180) := by
    refine not_lt.mpr ?_
    show (0 : ℝ) ≤ 30 * Real.pi / 180
    positivity
  rw [if_neg hw1, if_neg hw2, if_neg hw3]
  norm_num [mcIdAt, stRel]

/-- The sloped configuration `cfgC` sends the move of `lineBelow` to
transformed x coordinate `-6 < 0`: the below-platform warning fires and the
implausible-move branch passes the raw line through. -/
theorem step_cfgC_below :
    step cfgC st0 lineBelow =
      some (⟨⟨0, 0⟩, 0, 0, false⟩, [OutLine.raw lineBelow],
        [Warn.belowPlatform, Warn.suspectMove 0]) := by
  have hneg : mcC7.transformed.x < 0 := by
    show (-6 : ℝ) < 0
    norm_num
  have h := step_move_bad_eval cfgC st0 lineBelow gBelow strTen strTen 10 10 0 mcC7
    (by decide) rfl (by decide) rfl rfl pyFloatR_strTen pyFloatR_strTen rfl
    moveCalc_cfgC (Or.inl hneg)
  rw [h, if_pos (le_of_lt hneg)]
  norm_num [st0]

/-! ### Claims -/

/-- C1 (code_bug): the spec says relative-mode lines pass through exactly
once, unmodified, with no transform.  The code writes the line (source line
152) but the `continue` on line 153 is commented out, contradicting the
inline comment on line 151, so a relative-mode x/y move is emitted twice:
verbatim and then transformed, with the position state updated as well.
This theorem evaluates the code at the failing input: `lineG91` flips the
mode and passes through; the following move `lineMXY` produces two output
lines, the second a transformed move. -/
theorem c1_relative_fallthrough_bug :
    step cfgA st0 lineG91 = some (stRel, [OutLine.raw lineG91], []) ∧
    step cfgA stRel lineMXY =
      some (⟨⟨10, 10⟩, 1, 1, true⟩,
        [OutLine.raw lineMXY, OutLine.move 1 10 10 1 none none], []) := by
  constructor
  · rw [step_switchRel cfgA st0 lineG91 (by decide)]
    rfl
  · exact step_cfgA_rel_moveXY

/-- C2 (counterexample): the claim puts the emitted Z field on the
transform's offset axis and the X field on its height axis.  On the identity
curve shifted nowhere, the transform of `lineMXY` is `(1, 10)` — height-axis
component 1, offset-axis component 10 — and the emitted line is
`move 1 X=10 Y=10 Z=1`: Z carries the height-axis component, X the
offset-axis one, so the emitted line differs from the one the claim
dictates (`move 1 X=1 Y=10 Z=10`). -/
theorem c2_axes_counterexample :
    step cfgA st0 lineMXY =
      some (⟨⟨10, 10⟩, 1, 1, false⟩, [OutLine.move 1 10 10 1 none none], []) ∧
    (moveCalc cfgA ⟨0, 0⟩ 10 1).map MoveCalc.transformed = some ⟨1, 10⟩ ∧
    OutLine.move 1 10 10 1 none none ≠ OutLine.move 1 1 10 10 none none := by
  refine ⟨step_cfgA_abs_moveXY, ?_, ?_⟩
  · rw [moveCalc_cfgA]
    rfl
  · intro hcontra
    rw [OutLine.move.injEq] at hcontra
    norm_num at hcontra

/-- C2 (amended): for every absolute-mode parseable move carrying both x and
y, the emitted rewritten line takes its Z field from the transform's
height-axis component (`transformed.x`), its X field from the transform's
offset-axis component (`transformed.y`), keeps the original Y unchanged and
carries the corrected extrusion value. -/
theorem c2_amended_axes (cfg : Config) (st : PState) (line : String)
    (cmd : GCodeLine) (xs ys : String) (xv yv cz : ℝ) (mc : MoveCalc) (eo : Option ℝ)
    (hcl : classify line = LineKind.plain) (hrel : st.relativeMode = false)
    (hparse : parseGCode line = some cmd)
    (hx : cmd.x = some xs) (hy : cmd.y = some ys)
    (hxv : pyFloatR xs = some xv) (hyv : pyFloatR ys = some yv)
    (hcz : zOf cmd st = some cz)
    (hmc : moveCalc cfg st.lastPosition xv cz = some mc)
    (hok : ¬(mc.transformed.x < 0 ∨ |mc.transformed.x - cz| > 50))
    (heo : extrOf cmd mc.scale = some eo) :
    step cfg st line =
      some (⟨⟨xv, yv⟩, cz, cz, false⟩,
        [OutLine.move 1 mc.transformed.y yv mc.transformed.x none eo],
        (if mc.transformed.x ≤ 0 then [Warn.belowPlatform] else []) ++
          (if cfg.layerHeight + mc.heightDiff < 0
           then [Warn.selfIntersection cz] else []) ++
          (if mc.angleThis > cfg.warningAngle * Real.pi / 180
           then [Warn.angleLimit mc.angleThis cz] else [])) :=
  step_move_ok_eval cfg st line cmd xs ys xv yv cz mc eo hcl hrel hparse hx hy
    hxv hyv hcz hmc hok heo

/-- C2 witness: the amended claim evaluated on `lineMXY` over the identity
curve. -/
theorem c2_amended_axes_witness :
    step cfgA st0 lineMXY =
      some (⟨⟨10, 10⟩, 1, 1, false⟩, [OutLine.move 1 10 10 1 none none], []) := by
  have h := c2_amended_axes cfgA st0 lineMXY gMXY strTen strTen 10 10 1
    (mcIdAt 1 10) none (by decide) rfl (by decide) rfl rfl pyFloatR_strTen
    pyFloatR_strTen (zOf_gMXY st0) (moveCalc_cfgA st0.lastPosition 10)
    (mcIdAt_ok 1 10 1 (by norm_num) (by norm_num)) rfl
  have hw1 : ¬ ((mcIdAt 1 10).transformed.x ≤ 0) := by norm_num [mcIdAt]
  have hw2 : ¬ (cfgA.layerHeight + (mcIdAt 1 10).heightDiff < 0) := by
    norm_num [cfgA, mcIdAt]
  have hw3 : ¬ ((mcIdAt 1 10).angleThis > cfgA.warningAngle * Real.pi / 180) := by
    refine not_lt.mpr ?_
    show (0 : ℝ) ≤ 30 * Real.pi / 180
    positivity
  rw [h, if_neg hw1, if_neg hw2, if_neg hw3]
  norm_num [mcIdAt]

/-- C3: an absolute-mode curve-following move whose transformed
physical-Z-equivalent coordinate is negative, or deviates from the original
physical height by more than 50, is discarded: the original line passes
through unchanged and the possibly-unplausible-move warning is reported. -/
theorem c3_suspect_passthrough (cfg : Config) (st : PState) (line : String)
    (cmd : GCodeLine) (xs ys : String) (xv yv cz : ℝ) (mc : MoveCalc)
    (hcl : classify line = LineKind.plain) (hrel : st.relativeMode = false)
    (hparse : parseGCode line = some cmd)
    (hx : cmd.x = some xs) (hy : cmd.y = some ys)
    (hxv : pyFloatR xs = some xv) (hyv : pyFloatR ys = some yv)
    (hcz : zOf cmd st = some cz)
    (hmc : moveCalc cfg st.lastPosition xv cz = some mc)
    (hbad : mc.transformed.x < 0 ∨ |mc.transformed.x - cz| > 50) :
    step cfg st line =
      some (⟨st.lastPosition, cz, st.lastZ, false⟩,
        [OutLine.raw line],
        (if mc.transformed.x ≤ 0 then [Warn.belowPlatform] else []) ++
          [Warn.suspectMove cz]) :=
  step_move_bad_eval cfg st line cmd xs ys xv yv cz mc hcl hrel hparse hx hy
    hxv hyv hcz hmc hbad

/-- C3 witness: a move at z height 60 whose corrected height is 1 deviates by
59 > 50 and passes through raw with the warning. -/
theorem c3_suspect_passthrough_witness :
    step cfgB st0 lineSixty =
      some (⟨⟨0, 0⟩, 60, 0, false⟩, [OutLine.raw lineSixty],
        [Warn.suspectMove 60]) := by
  have habs : |(mcIdAt 1 1).transformed.x - (60 : ℝ)| = 59 := by
    show |(1 : ℝ) - 60| = 59
    rw [show (1 : ℝ) - 60 = -59 by norm_num, abs_neg,
      abs_of_nonneg (by norm_num : (0 : ℝ) ≤ 59)]
  have h := c3_suspect_passthrough cfgB st0 lineSixty gSixty strOne strOne 1 1 60
    (mcIdAt 1 1) (by decide) rfl (by decide) rfl rfl pyFloatR_strOne
    pyFloatR_strOne (zOf_gSixty st0) (moveCalc_cfgB st0.lastPosition 1)
    (Or.inr (by rw [habs]; norm_num))
  rw [h, if_neg (show ¬ ((mcIdAt 1 1).transformed.x ≤ 0) from by norm_num [mcIdAt])]
  norm_num [st0]

/-- C4: the command parser yields a parsed command exactly for lines whose
head is a recognized move command (`g`/`G` followed by a digit `0`-`3`); any
other line gives the absent result, never an error.  In the embedding
`parseGCode` is a plain function of the line, so it is pure by
construction. -/
theorem c4_parse_move_only (line : String) :
    (parseGCode line).isSome = moveHead line := by
  unfold parseGCode moveHead
  cases hld : line.data with
  | nil => rfl
  | cons g t =>
    cases t with
    | nil => rfl
    | cons d rest =>
      cases hC : (g == 'G' || g == 'g') &&
          (d == '0' || d == '1' || d == '2' || d == '3') <;>
        simp [hC]

/-- C5: `onSplineLength` scans forward for the first table entry at least the
target and returns its index times the discretization length; and because
`createSplineLookupTable` always starts the table with entry 0, the lookup of
arc length 0 is height 0 for every curve configuration. -/
theorem c5_table_scan :
    (∀ (table : List ℝ) (dl z h : ℝ) (i : ℕ),
        (∀ j, j < i → ∀ x, table[j]? = some x → x < z) →
        table[i]? = some h → z ≤ h →
        onSplineLength table dl z = some ((i : ℝ) * dl)) ∧
    (∀ (f : ℝ → ℝ) (dl : ℝ) (n : ℕ),
        onSplineLength (createSplineLookupTable f dl n) dl 0 = some 0) := by
  constructor
  · intro table dl z h i hlt hih hz
    have hs := onSplineLengthAux_scan dl z table i 0 h hlt hih hz
    unfold onSplineLength
    rw [hs]
    simp
  · intro f dl n
    unfold onSplineLength createSplineLookupTable
    rw [List.range_succ_eq_map]
    simp only [List.map_cons]
    rw [onSplineLengthAux_hit _ _ _ _ _ (by simp [arcAccum])]
    norm_num

/-- C5 witness: on the table `[0, 2, 5]` the first entry at least 3 sits at
index 2; and the zero lookup on a freshly built table is 0. -/
theorem c5_table_scan_witness :
    onSplineLength [(0 : ℝ), 2, 5] 1 3 = some (((2 : ℕ) : ℝ) * 1) ∧
    onSplineLength (createSplineLookupTable (fun _ => (0 : ℝ)) 1 3) 1 0 = some 0 := by
  refine ⟨c5_table_scan.1 [0, 2, 5] 1 3 5 2 ?_ ?_ ?_, c5_table_scan.2 (fun _ => 0) 1 3⟩
  · intro j hj x hx
    interval_cases j <;>
      simp only [List.getElem?_cons_zero, List.getElem?_cons_succ,
        Option.some.injEq] at hx <;>
      rw [← hx] <;> norm_num
  · rfl
  · norm_num

/-- C6: an absolute-mode parseable move with no x and no y field but with a z
field is re-emitted as an explicit relative Z move of `currentZ - lastZ`,
bracketed by a switch to relative mode before and back to absolute after,
preserving any feed rate string, for every curve configuration. -/
theorem c6_zhop_bracket (cfg : Config) (st : PState) (line : String)
    (cmd : GCodeLine) (zs : String) (zv : ℝ)
    (hcl : classify line = LineKind.plain) (hrel : st.relativeMode = false)
    (hparse : parseGCode line = some cmd)
    (hx : cmd.x = none) (hy : cmd.y = none) (hz : cmd.z = some zs)
    (hzv : pyFloatR zs = some zv) :
    step cfg st line =
      some (⟨st.lastPosition, zv, zv, false⟩,
        [OutLine.setRelative, OutLine.relZ (zv - st.lastZ) cmd.f,
          OutLine.setAbsolute], []) := by
  have hcz : zOf cmd st = some zv := by
    unfold zOf
    rw [hz]
    exact hzv
  rw [step_plain_eq _ _ _ hcl, stepPlain_parsed _ _ _ _ hparse,
    stepParsed_zhop _ _ _ _ _ zv zs hcz hx hz, hrel]
  simp

/-- C6 witness: the z-hop line re-emitted as a bracketed relative move with
its feed string kept. -/
theorem c6_zhop_bracket_witness :
    step cfgA st0 lineZhop =
      some (⟨⟨0, 0⟩, 5, 5, false⟩,
        [OutLine.setRelative, OutLine.relZ 5 (some strF300),
          OutLine.setAbsolute], []) := by
  have h := c6_zhop_bracket cfgA st0 lineZhop gZhop strFive 5 (by decide) rfl
    (by decide) rfl rfl rfl pyFloatR_strFive
  rw [h]
  norm_num [st0, gZhop]

/-- C7 (counterexample): the claim says a move with transformed leading
coordinate at most 0 is emitted transformed, with the warning only.  On
`cfgC` the transform of `lineBelow` has leading coordinate `-6 ≤ 0`; the
below-platform warning fires, but the implausible-move check also fires, the
suspect-move warning is reported too, and the output is the raw input line,
not a transformed move. -/
theorem c7_below_counterexample :
    moveCalc cfgC ⟨0, 0⟩ 10 0 = some mcC7 ∧
    mcC7.transformed.x = -6 ∧
    step cfgC st0 lineBelow =
      some (⟨⟨0, 0⟩, 0, 0, false⟩, [OutLine.raw lineBelow],
        [Warn.belowPlatform, Warn.suspectMove 0]) ∧
    OutLine.raw lineBelow ≠
      OutLine.move 1 mcC7.transformed.y 10 mcC7.transformed.x none none := by
  refine ⟨moveCalc_cfgC, rfl, step_cfgC_below, by simp⟩

/-- C7 (amended): whenever the transformed leading coordinate is at most 0,
the below-build-platform warning is reported and the line still appears in
the output — but it is emitted transformed only when the move also passes the
implausibility check; a strictly negative leading coordinate trips that check
and the line is emitted untransformed instead. -/
theorem c7_amended_below (cfg : Config) (st : PState) (line : String)
    (cmd : GCodeLine) (xs ys : String) (xv yv cz : ℝ) (mc : MoveCalc) (eo : Option ℝ)
    (hcl : classify line = LineKind.plain) (hrel : st.relativeMode = false)
    (hparse : parseGCode line = some cmd)
    (hx : cmd.x = some xs) (hy : cmd.y = some ys)
    (hxv : pyFloatR xs = some xv) (hyv : pyFloatR ys = some yv)
    (hcz : zOf cmd st = some cz)
    (hmc : moveCalc cfg st.lastPosition xv cz = some mc)
    (heo : extrOf cmd mc.scale = some eo)
    (hneg : mc.transformed.x ≤ 0) :
    ∃ st2 outs ws, step cfg st line = some (st2, outs, ws) ∧
      Warn.belowPlatform ∈ ws ∧ outs ≠ [] ∧
      (mc.transformed.x < 0 → outs = [OutLine.raw line]) ∧
      (¬(mc.transformed.x < 0 ∨ |mc.transformed.x - cz| > 50) →
        outs = [OutLine.move 1 mc.transformed.y yv mc.transformed.x none eo]) := by
  by_cases hbad : mc.transformed.x < 0 ∨ |mc.transformed.x - cz| > 50
  · have h := step_move_bad_eval cfg st line cmd xs ys xv yv cz mc hcl hrel hparse
      hx hy hxv hyv hcz hmc hbad
    rw [if_pos hneg] at h
    exact ⟨_, _, _, h, by simp, by simp, fun _ => rfl, fun hok => absurd hbad hok⟩
  · have h := step_move_ok_eval cfg st line cmd xs ys xv yv cz mc eo hcl hrel hparse
      hx hy hxv hyv hcz hmc hbad heo
    rw [if_pos hneg] at h
    refine ⟨_, _, _, h, by simp, by simp, ?_, fun _ => rfl⟩
    intro hlt
    exact absurd (Or.inl hlt) hbad

/-- C7 witness: the amended claim evaluated on `cfgC`, where the leading
coordinate is `-6`. -/
theorem c7_amended_below_witness :
    ∃ st2 outs ws, step cfgC st0 lineBelow = some (st2, outs, ws) ∧
      Warn.belowPlatform ∈ ws ∧ outs ≠ [] ∧
      (mcC7.transformed.x < 0 → outs = [OutLine.raw lineBelow]) ∧
      (¬(mcC7.transformed.x < 0 ∨ |mcC7.transformed.x - 0| > 50) →
        outs = [OutLine.move 1 mcC7.transformed.y 10 mcC7.transformed.x
          none none]) :=
  c7_amended_below cfgC st0 lineBelow gBelow strTen strTen 10 10 0 mcC7 none
    (by decide) rfl (by decide) rfl rfl pyFloatR_strTen pyFloatR_strTen rfl
    moveCalc_cfgC rfl (by show (-6 : ℝ) ≤ 0; norm_num)

/-- C8: on an identity curve (spline constantly equal to the reference x
origin, derivative identically zero) the transform leaves the planar x
coordinate unchanged on the offset axis and the extrusion scale factor is
exactly 1. -/
theorem c8_identity_curve (cfg : Config) (lp : Point2D) (x h : ℝ)
    (hs : cfg.spline = fun _ => cfg.splineX0)
    (hd : cfg.splineDeriv = fun _ => 0)
    (hlh : cfg.layerHeight ≠ 0) :
    (moveCalcAt cfg lp x h).transformed.y = x ∧
    (moveCalcAt cfg lp x h).scale = 1 := by
  rw [moveCalcAt_zeroDeriv cfg lp x h hd]
  constructor
  · show cfg.spline h + (x - cfg.splineX0) = x
    rw [hs]
    ring
  · show cfg.layerHeight / cfg.layerHeight = 1
    exact div_self hlh

/-- C8 witness: the identity configuration `cfgA` at planar x 5, height 2. -/
theorem c8_identity_curve_witness :
    (moveCalcAt cfgA ⟨0, 0⟩ 5 2).transformed.y = 5 ∧
    (moveCalcAt cfgA ⟨0, 0⟩ 5 2).scale = 1 :=
  c8_identity_curve cfgA ⟨0, 0⟩ 5 2 rfl rfl (by norm_num [cfgA])

/-- C9: a transformed and re-emitted x/y move never carries a feed rate: the
`writeLine` call site passes `None` for F even when the input line had an F
field. -/
theorem c9_feed_dropped (cfg : Config) (st : PState) (line : String)
    (cmd : GCodeLine) (xs ys fs : String) (xv yv cz : ℝ) (mc : MoveCalc)
    (eo : Option ℝ)
    (hcl : classify line = LineKind.plain) (hrel : st.relativeMode = false)
    (hparse : parseGCode line = some cmd)
    (hx : cmd.x = some xs) (hy : cmd.y = some ys) (hf : cmd.f = some fs)
    (hxv : pyFloatR xs = some xv) (hyv : pyFloatR ys = some yv)
    (hcz : zOf cmd st = some cz)
    (hmc : moveCalc cfg st.lastPosition xv cz = some mc)
    (hok : ¬(mc.transformed.x < 0 ∨ |mc.transformed.x - cz| > 50))
    (heo : extrOf cmd mc.scale = some eo) :
    ∃ ws, step cfg st line =
      some (⟨⟨xv, yv⟩, cz, cz, false⟩,
        [OutLine.move 1 mc.transformed.y yv mc.transformed.x none eo], ws) :=
  ⟨_, step_move_ok_eval cfg st line cmd xs ys xv yv cz mc eo hcl hrel hparse
    hx hy hxv hyv hcz hmc hok heo⟩

/-- C9 witness: `lineFeed` carries `F1200`, yet the emitted move has no F
argument. -/
theorem c9_feed_dropped_witness :
    ∃ ws, step cfgA st0 lineFeed =
      some (⟨⟨10, 10⟩, 1, 1, false⟩,
        [OutLine.move 1 (10 : ℝ) 10 1 none none], ws) := by
  have h := c9_feed_dropped cfgA st0 lineFeed gFeed strTen strTen strF1200 10 10 1
    (mcIdAt 1 10) none (by decide) rfl (by decide) rfl rfl rfl pyFloatR_strTen
    pyFloatR_strTen (zOf_gFeed st0) (moveCalc_cfgA st0.lastPosition 10)
    (mcIdAt_ok 1 10 1 (by norm_num) (by norm_num)) rfl
  exact h

/-- C10: mode switching is substring-based.  On any non-comment line, the
token `G91 ` anywhere in the line switches to relative mode and passes the
line through verbatim; otherwise `G90 ` likewise switches to absolute mode;
and when neither token occurs — e.g. a bare `G90` at end of line, without the
trailing space — the mode is left unchanged whatever else the line does. -/
theorem c10_substring_modes (cfg : Config) (st : PState) (line : String) (c : Char)
    (hd : line.data.head? = some c) (hc : (c == ';') = false) :
    (containsSubstr line tokG91 = true →
      step cfg st line =
        some (⟨st.lastPosition, st.currentZ, st.lastZ, true⟩,
          [OutLine.raw line], [])) ∧
    (containsSubstr line tokG91 = false → containsSubstr line tokG90 = true →
      step cfg st line =
        some (⟨st.lastPosition, st.currentZ, st.lastZ, false⟩,
          [OutLine.raw line], [])) ∧
    (containsSubstr line tokG91 = false → containsSubstr line tokG90 = false →
      ∀ st2 outs ws, step cfg st line = some (st2, outs, ws) →
        st2.relativeMode = st.relativeMode) := by
  refine ⟨?_, ?_, ?_⟩
  · intro h91
    have hcl : classify line = LineKind.switchRel := by
      rw [classify_not_comment line c hd hc]
      simp [h91]
    exact step_switchRel cfg st line hcl
  · intro h91 h90
    have hcl : classify line = LineKind.switchAbs := by
      rw [classify_not_comment line c hd hc]
      simp [h91, h90]
    exact step_switchAbs cfg st line hcl
  · intro h91 h90 st2 outs ws hstep
    have hcl : classify line = LineKind.plain := by
      rw [classify_not_comment line c hd hc]
      simp [h91, h90]
    rw [step_plain_eq cfg st line hcl] at hstep
    exact stepPlain_mode cfg st line st2 outs ws hstep

/-- C10 witness: the mid-line token on `lineMid91` flips the mode and the
line passes verbatim; the bare `G90` line without trailing space is not
recognized and the state is unchanged. -/
theorem c10_substring_modes_witness :
    step cfgA st0 lineMid91 =
      some (⟨⟨0, 0⟩, 0, 0, true⟩, [OutLine.raw lineMid91], []) ∧
    step cfgA st0 lineG90bare = some (st0, [OutLine.raw lineG90bare], []) ∧
    st0.relativeMode = false := by
  refine ⟨?_, ?_, rfl⟩
  · have h := (c10_substring_modes cfgA st0 lineMid91 'G' (by decide)
      (by decide)).1 (by decide)
    rw [h]
    rfl
  · rw [step_plain_eq _ _ _ (by decide), stepPlain_unparsed _ _ _ (by decide)]
    rfl

end BendGCode
